import Mathlib

/-
  Shallow embedding of the claim-rewards repository (TheCrazyGM/claim-rewards).

  The repository consists of near-duplicate Python script variants that claim
  Hive rewards for a list of accounts:
    - src/standalone/claim-rewards.py        (the "Standalone" namespace below)
    - src/src/claim_rewards/main.py          (the "MainPy" namespace below)
    - src/src/claim_rewards/scot.py          (the "ScotPy" namespace below)
    - src/src/claim_rewards/scot_client.py   (the "ScotClient" namespace below)
    - src/src/claim_rewards/config.py        (shared config helpers; these are
      textually identical in main.py, scot.py and the standalone script, so
      they are embedded once, in the ClaimRewards namespace)

  External effects (blockchain connection, account lookup, reward fetch,
  transaction broadcast, HTTP GET) are modelled as explicit parameters:
  a fetch function gives each account's reward snapshot (or marks that the
  lookup raised), and boolean flags state whether connecting, loading the
  authority account, or broadcasting succeeds.  Token amounts are modelled
  as exact rationals; Python float formatting "\x7b:.Nf\x7d".format is modelled as
  exact round-half-to-even on the rational value, which agrees with Python on
  every amount appearing in the claims.
-/

deriving instance DecidableEq for Except

namespace ClaimRewards

/-- A reward balance as seen through `getattr(r, "amount", 0)`:
only its numeric amount matters to the orchestrator. -/
structure Reward where
  amount : ℚ
deriving DecidableEq

/-- Result of `Account(account_name, blockchain_instance=hive)` followed by
`getattr(target_account, "reward_balances", [])`: either the lookup raises,
or it yields a list of reward balances. -/
inductive FetchResult where
  | raises
  | ok (rewards : List Reward)
deriving DecidableEq

/-- Per-account result of one iteration of the claim loop
(standalone/claim-rewards.py lines 160-191, main.py lines 207-250). -/
inductive ClaimOutcome where
  | claimed
  | nothingToClaim
  | failed
deriving DecidableEq

/-- One iteration of the native-reward claim loop body, shared verbatim by
standalone/claim-rewards.py (lines 160-184) and main.py (lines 207-242):
fetch `reward_balances`; if the list is empty or every amount is 0, log and
continue (nothing to claim, no broadcast); otherwise in dry-run mode count a
claim without broadcasting, and otherwise call
`main_account.claim_reward_balance(account=account_name)`, which either
succeeds (claimed) or raises (failed).  Any exception is caught by the loop's
`except` clause, so the result is total.  The second component counts how many
times `claim_reward_balance` was invoked for this account (0 or 1). -/
def processAccount (fetch : FetchResult) (dryRun broadcastOk : Bool) :
    ClaimOutcome × ℕ :=
  match fetch with
  | .raises => (.failed, 0)
  | .ok rewards =>
    if rewards.isEmpty || rewards.all (fun r => decide (r.amount = 0)) then
      (.nothingToClaim, 0)
    else if dryRun then
      (.claimed, 0)
    else if broadcastOk then
      (.claimed, 1)
    else
      (.failed, 1)

namespace Standalone

/-- standalone/claim-rewards.py lines 159-191: the per-account loop with the
running `success_count`.  Returns the per-account outcomes in list order, the
final `success_count`, and the total number of `claim_reward_balance`
broadcasts issued.  The summary line prints `success_count` out of
`accounts.length`. -/
def claim_rewards_for_all_accounts (fetch : String → FetchResult)
    (broadcastOk : String → Bool) (dryRun : Bool) :
    List String → List (String × ClaimOutcome) × ℕ × ℕ
  | [] => ([], 0, 0)
  | a :: rest =>
    let step := processAccount (fetch a) dryRun (broadcastOk a)
    let tail := claim_rewards_for_all_accounts fetch broadcastOk dryRun rest
    ((a, step.1) :: tail.1,
     (if step.1 = ClaimOutcome.claimed then 1 else 0) + tail.2.1,
     step.2 + tail.2.2)

end Standalone

namespace MainPy

/-- main.py lines 189-250: the same per-account loop, but without a success
counter and without a summary line.  Returns the per-account outcomes in list
order and the number of `claim_reward_balance` broadcasts issued. -/
def claim_rewards_for_all_accounts (fetch : String → FetchResult)
    (broadcastOk : String → Bool) (dryRun : Bool) :
    List String → List (String × ClaimOutcome) × ℕ
  | [] => ([], 0)
  | a :: rest =>
    let step := processAccount (fetch a) dryRun (broadcastOk a)
    let tail := claim_rewards_for_all_accounts fetch broadcastOk dryRun rest
    ((a, step.1) :: tail.1, step.2 + tail.2)

end MainPy

/-- Python truthiness of an optional string: `None` and `""` are falsy. -/
def truthy : Option String → Bool
  | some s => !s.isEmpty
  | none => false

/-- config.py lines 58-97 (`get_posting_key`), textually identical in
main.py lines 76-104 and scot.py lines 113-141: pick the posting key with
precedence CLI > YAML > `POSTING_KEY` environment variable, testing each
source by Python truthiness; `sys.exit(1)` (modelled as `.error 1`) when the
chosen value is falsy.  `envKey` models `os.getenv("POSTING_KEY")`. -/
def get_posting_key (cli_posting_key yaml_posting_key envKey : Option String) :
    Except ℕ String :=
  let posting_key : Option String :=
    if truthy cli_posting_key then cli_posting_key
    else if truthy yaml_posting_key then yaml_posting_key
    else envKey
  match posting_key with
  | some s => if s.isEmpty then .error 1 else .ok s
  | none => .error 1

/-- The parsed content of a YAML config file, as the scripts consume it:
`data.get("accounts", [])` and `data.get("posting_key")`. -/
structure YamlData where
  accounts : Option (List String)
  posting_key : Option String
deriving DecidableEq

/-- The config source situation seen by `load_accounts_and_posting_key`:
an explicit `--accounts` path (whose open/parse either succeeds or raises),
the default `accounts.yaml` in the working directory, or neither. -/
inductive ConfigSource where
  | given (parsed : Except ℕ YamlData)
  | defaultFile (parsed : Except ℕ YamlData)
  | missing

/-- config.py lines 16-55 (`load_accounts_and_posting_key`), textually
identical in main.py lines 46-73 and scot.py lines 78-110: read the config
file (explicit path first, else `accounts.yaml`), returning
`(data.get("accounts", []), data.get("posting_key"))`; any read/parse error
and the no-file case `sys.exit(1)` (modelled as `.error 1`). -/
def load_accounts_and_posting_key : ConfigSource → Except ℕ (List String × Option String)
  | .given (.ok d) => .ok (d.accounts.getD [], d.posting_key)
  | .given (.error _) => .error 1
  | .defaultFile (.ok d) => .ok (d.accounts.getD [], d.posting_key)
  | .defaultFile (.error _) => .error 1
  | .missing => .error 1

/-- Round the fraction `n / d` (with `d > 0`) to the nearest integer, ties to
even: the rounding used by Python's fixed-point float formatting
`"\x7b:.Nf\x7d".format`.  `fl` is the floor and `r = n - fl * d ∈ [0, d)` the
remainder, so the fraction's distance above `fl` is `r / d`, compared with
`1 / 2` by cross-multiplication. -/
def roundHalfEvenFrac (n d : ℤ) : ℤ :=
  let fl := Int.fdiv n d
  let r := n - fl * d
  if d < 2 * r then fl + 1
  else if 2 * r < d then fl
  else if fl % 2 = 0 then fl else fl + 1

/-- Truncation toward zero: Python's `int(amount)` on a non-integral float.
`q.den` is positive, so T-division of the numerator by the denominator is
exactly truncation toward zero. -/
def ratTruncToInt (q : ℚ) : ℤ :=
  Int.tdiv q.num q.den

/-- Render an integer `n` of scaled units as a decimal string with exactly
`precision` digits after the point (`precision = 0` renders a bare integer):
the final string assembly of `"\x7b:.Nf\x7d".format`. -/
def renderFixed (n : ℤ) (precision : ℕ) : String :=
  if precision = 0 then toString n
  else
    let ds := (toString n.natAbs).toList
    let padded := List.replicate (precision + 1 - ds.length) '0' ++ ds
    let intPart := padded.take (padded.length - precision)
    let fracPart := padded.drop (padded.length - precision)
    (if n < 0 then "-" else "") ++ String.mk intPart ++ "." ++ String.mk fracPart

/-- Model of Python's `"\x7b:.Nf\x7d".format(amount)` on an exact rational amount:
scale by 10^precision (as the fraction `amount.num * 10^precision / amount.den`),
round half to even, render with `precision` decimals. -/
def formatFixed (amount : ℚ) (precision : ℕ) : String :=
  renderFixed
    (roundHalfEvenFrac (amount.num * (((10 : ℕ) ^ precision : ℕ) : ℤ)) (amount.den : ℤ))
    precision

/-- Python's `s.rstrip(c)` for a single character `c`: drop every trailing
occurrence of `c`. -/
def rstripChar (c : Char) (s : String) : String :=
  String.mk (s.toList.reverse.dropWhile (fun x => x == c)).reverse

namespace ScotClient

/-- scot_client.py lines 19-40 (`format_token_amount`): precision 0 returns
`str(int(amount))` (truncation); otherwise format to `precision` decimals,
then (since the formatted string contains ".") strip trailing zeroes and a
trailing point, falling back to "0" if everything was stripped. -/
def format_token_amount (amount : ℚ) (precision : ℕ) : String :=
  if precision = 0 then toString (ratTruncToInt amount)
  else
    let formatted := formatFixed amount precision
    if formatted.toList.contains '.' then
      let t := rstripChar '.' (rstripChar '0' formatted)
      if t.toList.isEmpty then "0" else t
    else formatted

end ScotClient

namespace ScotPy

/-- scot.py lines 167-179 (`format_token_amount`): format to exactly
`precision` decimals with no trimming and no precision-0 special case. -/
def format_token_amount (amount : ℚ) (precision : ℕ) : String :=
  formatFixed amount precision

end ScotPy

/-- One token's entry in the SCOT API JSON response, as the scripts consume
it: `token_data.get("pending_token", 0)`, `token_data.get("precision", 0)`,
`token_data.get("staked_tokens", 0)`. -/
structure TokenData where
  pending_token : Option ℤ
  precision : Option ℕ
  staked_tokens : Option ℤ
deriving DecidableEq

/-- One entry of the list returned by `get_scot_rewards`. -/
structure ScotReward where
  symbol : String
  pending : String
  staked : String
  precision : ℕ
  raw_pending : ℤ
deriving DecidableEq

/-- Exact value of Python's `raw / (10**precision)`: the raw integer amount
divided by the positive power of ten, as a rational. -/
def divPow10 (raw : ℤ) (precision : ℕ) : ℚ :=
  Rat.divInt raw (((10 : ℕ) ^ precision : ℕ) : ℤ)

/-- The outcome of the HTTP GET + JSON decode in `get_scot_rewards`:
either some network/decode step raised, or it yielded the response object
(an ordered mapping from token symbol to `TokenData`). -/
def ScotResponse : Type := Except Unit (List (String × TokenData))

namespace ScotClient

/-- scot_client.py lines 43-81 (`get_scot_rewards`): on any fetch/decode
error return `[]`; on success keep exactly the tokens whose
`pending_token` is > 0, with `pending` and `staked` computed by dividing the
raw integers by 10^precision and formatting via this module's trimming
`format_token_amount`. -/
def get_scot_rewards (response : ScotResponse) : List ScotReward :=
  match response with
  | .error _ => []
  | .ok data =>
    data.filterMap fun p =>
      if 0 < p.2.pending_token.getD 0 then
        let precision := p.2.precision.getD 0
        let pending_amount : ℚ := divPow10 (p.2.pending_token.getD 0) precision
        let staked_amount : ℚ := divPow10 (p.2.staked_tokens.getD 0) precision
        some { symbol := p.1
               pending := format_token_amount pending_amount precision
               staked := format_token_amount staked_amount precision
               precision := precision
               raw_pending := p.2.pending_token.getD 0 }
      else none

end ScotClient

namespace ScotPy

/-- scot.py lines 182-218 (`get_scot_rewards`): same filtering and scaling as
the scot_client.py variant, but formatting via scot.py's non-trimming
`format_token_amount`. -/
def get_scot_rewards (response : ScotResponse) : List ScotReward :=
  match response with
  | .error _ => []
  | .ok data =>
    data.filterMap fun p =>
      if 0 < p.2.pending_token.getD 0 then
        let precision := p.2.precision.getD 0
        let pending_amount : ℚ := divPow10 (p.2.pending_token.getD 0) precision
        let staked_amount : ℚ := divPow10 (p.2.staked_tokens.getD 0) precision
        some { symbol := p.1
               pending := format_token_amount pending_amount precision
               staked := format_token_amount staked_amount precision
               precision := precision
               raw_pending := p.2.pending_token.getD 0 }
      else none

end ScotPy

namespace Scot

/-- scot.py lines 221-290 and scot_client.py lines 84-151
(`claim_scot_rewards_for_account`), whose control flow is identical in both
files: given the fetched reward list for one account, return `True` when the
list is empty (nothing to claim) or in dry-run mode, in both cases issuing no
broadcast; otherwise broadcast one `custom_json` (`scot_claim_token`)
operation, returning `True` on success and `False` when any step raises.
The second component counts the `custom_json` broadcasts issued (0 or 1). -/
def claim_scot_rewards_for_account (rewards : List ScotReward)
    (dryRun broadcastOk : Bool) : Bool × ℕ :=
  if rewards.isEmpty then (true, 0)
  else if dryRun then (true, 0)
  else if broadcastOk then (true, 1)
  else (false, 1)

/-- scot.py lines 293-315 (`claim_scot_rewards_for_all_accounts`): loop over
the accounts in list order, calling `claim_scot_rewards_for_account` for each
inside a try/except, so no account's failure stops the loop; there is no
success counter and no summary.  Returns each account's result in order. -/
def claim_scot_rewards_for_all_accounts (fetch : String → List ScotReward)
    (broadcastOk : String → Bool) (dryRun : Bool) :
    List String → List (String × Bool)
  | [] => []
  | a :: rest =>
    (a, (claim_scot_rewards_for_account (fetch a) dryRun (broadcastOk a)).1) ::
      claim_scot_rewards_for_all_accounts fetch broadcastOk dryRun rest

end Scot

namespace Standalone

/-- Where a run of standalone/claim-rewards.py's `main` ends up. -/
inductive RunOutcome where
  | exitConfig
  | exitEmptyAccounts
  | exitKey
  | completed (result : Option (List (String × ClaimOutcome) × ℕ × ℕ))
deriving DecidableEq

/-- standalone/claim-rewards.py lines 141-158: the prologue of
`claim_rewards_for_all_accounts`.  `connect_to_hive` re-raises on failure and
the caller catches it, logs, and returns (`none`); loading the main account
likewise returns on failure; otherwise the per-account loop runs to the
summary line. -/
def claim_rewards_for_all_accounts_run (connectOk mainAcctOk : Bool)
    (fetch : String → FetchResult) (broadcastOk : String → Bool)
    (dryRun : Bool) (accounts : List String) :
    Option (List (String × ClaimOutcome) × ℕ × ℕ) :=
  if connectOk = false then none
  else if mainAcctOk = false then none
  else some (claim_rewards_for_all_accounts fetch broadcastOk dryRun accounts)

/-- standalone/claim-rewards.py lines 197-225 (`main`): load the config
(exit 1 on failure), exit 1 when the account list is empty, resolve the
posting key (exit 1 on failure), then designate `accounts[0]` as authority
and run the claim loop, whose own failures never propagate. -/
def run (cfg : ConfigSource) (cliKey envKey : Option String)
    (connectOk mainAcctOk : Bool) (fetch : String → FetchResult)
    (broadcastOk : String → Bool) (dryRun : Bool) : RunOutcome :=
  match load_accounts_and_posting_key cfg with
  | .error _ => .exitConfig
  | .ok (accounts, yamlKey) =>
    if accounts.isEmpty then .exitEmptyAccounts
    else
      match get_posting_key cliKey yamlKey envKey with
      | .error _ => .exitKey
      | .ok _ =>
        .completed (claim_rewards_for_all_accounts_run connectOk mainAcctOk
          fetch broadcastOk dryRun accounts)

/-- The process exit code of a standalone run: `sys.exit(1)` paths give 1,
and a `main` that returns (whatever the claim loop did) gives 0. -/
def mainExit (cfg : ConfigSource) (cliKey envKey : Option String)
    (connectOk mainAcctOk : Bool) (fetch : String → FetchResult)
    (broadcastOk : String → Bool) (dryRun : Bool) : ℕ :=
  match run cfg cliKey envKey connectOk mainAcctOk fetch broadcastOk dryRun with
  | .completed _ => 0
  | _ => 1

end Standalone

namespace MainPy

/-- Where a run of main.py's `main` ends up.  `indexError` is the unguarded
`accounts[0]` raising `IndexError` on an empty list; `authorityError` is
`Account(main_account_name, ...)` raising at main.py line 205, outside any
try block; both are caught only by the top-level handler, which exits 1. -/
inductive RunOutcome where
  | exitConfig
  | exitKey
  | exitConnect
  | indexError
  | authorityError
  | completed (results : List (String × ClaimOutcome)) (broadcasts : ℕ)
deriving DecidableEq

/-- main.py lines 252-301 (`main`) plus the top-level handler: load the
config (exit 1 on failure), resolve the posting key (exit 1 on failure),
connect (`connect_to_hive` calls `sys.exit(1)` on failure), then evaluate
`accounts[0]` with no emptiness guard, instantiate the authority account
(line 205, may raise), and run the per-account loop, which catches every
per-account exception. -/
def run (cfg : ConfigSource) (cliKey envKey : Option String)
    (connectOk mainAcctOk : Bool) (fetch : String → FetchResult)
    (broadcastOk : String → Bool) (dryRun : Bool) : RunOutcome :=
  match load_accounts_and_posting_key cfg with
  | .error _ => .exitConfig
  | .ok (accounts, yamlKey) =>
    match get_posting_key cliKey yamlKey envKey with
    | .error _ => .exitKey
    | .ok _ =>
      if connectOk = false then .exitConnect
      else
        match accounts with
        | [] => .indexError
        | _ :: _ =>
          if mainAcctOk = false then .authorityError
          else
            let r := claim_rewards_for_all_accounts fetch broadcastOk dryRun accounts
            .completed r.1 r.2

/-- The process exit code of a main.py run: `sys.exit(1)` paths and uncaught
exceptions (via the top-level handler) give 1; a completed loop gives 0. -/
def mainExit (cfg : ConfigSource) (cliKey envKey : Option String)
    (connectOk mainAcctOk : Bool) (fetch : String → FetchResult)
    (broadcastOk : String → Bool) (dryRun : Bool) : ℕ :=
  match run cfg cliKey envKey connectOk mainAcctOk fetch broadcastOk dryRun with
  | .completed _ _ => 0
  | _ => 1

end MainPy

end ClaimRewards

namespace ClaimRewards

/-- The standalone claim loop visits exactly the given accounts, in order. -/
theorem standalone_loop_map_fst (fetch : String → FetchResult)
    (broadcastOk : String → Bool) (dryRun : Bool) (accounts : List String) :
    ((Standalone.claim_rewards_for_all_accounts fetch broadcastOk dryRun
      accounts).1).map Prod.fst = accounts := by
  induction accounts with
  | nil => rfl
  | cons a rest ih =>
    simp [Standalone.claim_rewards_for_all_accounts, ih]

/-- When every visited account's processing ends in `failed`, the standalone
loop's success counter stays at zero. -/
theorem standalone_loop_success_zero (fetch : String → FetchResult)
    (broadcastOk : String → Bool) (dryRun : Bool) (accounts : List String)
    (h : ∀ a ∈ accounts,
      (processAccount (fetch a) dryRun (broadcastOk a)).1 = ClaimOutcome.failed) :
    (Standalone.claim_rewards_for_all_accounts fetch broadcastOk dryRun
      accounts).2.1 = 0 := by
  induction accounts with
  | nil => rfl
  | cons a rest ih =>
    have ha := h a (List.mem_cons_self a rest)
    have hrest := ih (fun x hx => h x (List.mem_cons_of_mem a hx))
    simp [Standalone.claim_rewards_for_all_accounts, ha, hrest]

/-- The SCOT claim loop visits exactly the given accounts, in order. -/
theorem scot_loop_map_fst (fetch : String → List ScotReward)
    (broadcastOk : String → Bool) (dryRun : Bool) (accounts : List String) :
    (Scot.claim_scot_rewards_for_all_accounts fetch broadcastOk dryRun
      accounts).map Prod.fst = accounts := by
  induction accounts with
  | nil => rfl
  | cons a rest ih =>
    simp [Scot.claim_scot_rewards_for_all_accounts, ih]

end ClaimRewards

namespace ClaimRewards

/-- Claim C1: for every account list and any per-account exception (including
a Reward Source that fails for every account), the orchestrator loops still
process every account in list order (standalone and SCOT variants), and when
every account's processing fails the standalone summary reports
`success_count = 0` out of `accounts.length` accounts; no single account's
exception aborts the run. -/
theorem C1_failure_isolation (fetch : String → FetchResult)
    (broadcastOk : String → Bool) (dryRun : Bool)
    (sfetch : String → List ScotReward) (sbroadcastOk : String → Bool)
    (accounts : List String) :
    ((Standalone.claim_rewards_for_all_accounts fetch broadcastOk dryRun
        accounts).1).map Prod.fst = accounts
    ∧ (Standalone.claim_rewards_for_all_accounts fetch broadcastOk dryRun
        accounts).1.length = accounts.length
    ∧ (Scot.claim_scot_rewards_for_all_accounts sfetch sbroadcastOk dryRun
        accounts).map Prod.fst = accounts
    ∧ ((∀ a ∈ accounts,
          (processAccount (fetch a) dryRun (broadcastOk a)).1 = ClaimOutcome.failed) →
        (Standalone.claim_rewards_for_all_accounts fetch broadcastOk dryRun
          accounts).2.1 = 0) := by
  refine ⟨standalone_loop_map_fst fetch broadcastOk dryRun accounts, ?_,
    scot_loop_map_fst sfetch sbroadcastOk dryRun accounts,
    standalone_loop_success_zero fetch broadcastOk dryRun accounts⟩
  have h := standalone_loop_map_fst fetch broadcastOk dryRun accounts
  calc (Standalone.claim_rewards_for_all_accounts fetch broadcastOk dryRun
          accounts).1.length
      = (((Standalone.claim_rewards_for_all_accounts fetch broadcastOk dryRun
          accounts).1).map Prod.fst).length := (List.length_map _ _).symm
    _ = accounts.length := by rw [h]

/-- Witness for C1: a two-account run whose account lookups always raise is
still processed in full, with a success count of 0. -/
theorem C1_failure_isolation_witness :
    ((Standalone.claim_rewards_for_all_accounts (fun _ => FetchResult.raises)
        (fun _ => true) false ["alice", "bob"]).1).map Prod.fst = ["alice", "bob"]
    ∧ (Standalone.claim_rewards_for_all_accounts (fun _ => FetchResult.raises)
        (fun _ => true) false ["alice", "bob"]).2.1 = 0 :=
  ⟨(C1_failure_isolation (fun _ => FetchResult.raises) (fun _ => true) false
      (fun _ => []) (fun _ => true) ["alice", "bob"]).1,
   (C1_failure_isolation (fun _ => FetchResult.raises) (fun _ => true) false
      (fun _ => []) (fun _ => true) ["alice", "bob"]).2.2.2 (by decide)⟩

end ClaimRewards

namespace ClaimRewards

/-- Claim C2: for an account whose reward snapshot has at least one positive
amount, a dry-run makes no broadcast call (`claim_reward_balance` count 0,
`custom_json` count 0) yet records the account as claimed: the native loop
body yields outcome `claimed`, and the SCOT per-account claim returns
`True`. -/
theorem C2_dry_run_counts_claim_without_broadcast
    (rewards : List Reward) (broadcastOk : Bool)
    (hpos : ∃ r ∈ rewards, 0 < r.amount) :
    processAccount (.ok rewards) true broadcastOk = (ClaimOutcome.claimed, 0)
    ∧ ∀ (srewards : List ScotReward) (sbOk : Bool), srewards ≠ [] →
        Scot.claim_scot_rewards_for_account srewards true sbOk = (true, 0) := by
  constructor
  · obtain ⟨r, hmem, hr⟩ := hpos
    have hne : rewards.isEmpty = false := by
      cases rewards with
      | nil => cases hmem
      | cons x xs => rfl
    have hall : rewards.all (fun r => decide (r.amount = 0)) = false := by
      rw [List.all_eq_false]
      exact ⟨r, hmem, by simp [hr.ne.symm]⟩
    simp [processAccount, hne, hall]
  · intro srewards sbOk hne
    have h : srewards.isEmpty = false := by
      cases srewards with
      | nil => exact absurd rfl hne
      | cons x xs => rfl
    simp [Scot.claim_scot_rewards_for_account, h]

/-- Witness for C2: one positive HIVE-like reward balance in dry-run mode is
recorded as claimed with no broadcast, and a nonempty SCOT snapshot in
dry-run mode returns success with no `custom_json`. -/
theorem C2_dry_run_counts_claim_without_broadcast_witness :
    processAccount (FetchResult.ok [⟨1⟩]) true true = (ClaimOutcome.claimed, 0)
    ∧ Scot.claim_scot_rewards_for_account [⟨"PAL", "1.5", "2", 3, 1500⟩] true true
      = (true, 0) :=
  ⟨(C2_dry_run_counts_claim_without_broadcast [⟨1⟩] true
      ⟨⟨1⟩, by decide, by decide⟩).1,
   (C2_dry_run_counts_claim_without_broadcast [⟨1⟩] true
      ⟨⟨1⟩, by decide, by decide⟩).2 [⟨"PAL", "1.5", "2", 3, 1500⟩] true (by decide)⟩

/-- Claim C3: an account whose reward snapshot is empty or has every amount
equal to 0 is recorded as nothing-to-claim, with no broadcast call, in any
dry-run mode. -/
theorem C3_all_zero_nothing_to_claim (rewards : List Reward)
    (dryRun broadcastOk : Bool)
    (h : rewards = [] ∨ ∀ r ∈ rewards, r.amount = 0) :
    processAccount (.ok rewards) dryRun broadcastOk
      = (ClaimOutcome.nothingToClaim, 0) := by
  rcases h with h | h
  · subst h
    rfl
  · have hall : rewards.all (fun r => decide (r.amount = 0)) = true := by
      rw [List.all_eq_true]
      intro r hr
      simp [h r hr]
    simp [processAccount, hall]

/-- Witness for C3: a snapshot holding a single zero balance yields
nothing-to-claim and no broadcast, in a live (non-dry-run) run. -/
theorem C3_all_zero_nothing_to_claim_witness :
    processAccount (FetchResult.ok [⟨0⟩]) false true
      = (ClaimOutcome.nothingToClaim, 0) :=
  C3_all_zero_nothing_to_claim [⟨0⟩] false true (by decide)

end ClaimRewards

namespace ClaimRewards

/-- Claim C4: `get_posting_key` resolves exactly one secret with fixed
precedence CLI > YAML config > `POSTING_KEY` environment variable: with CLI
"A", config "B", env "C" it returns "A"; with CLI absent it returns "B";
with CLI and config absent it returns "C"; with all three absent the process
exits with code 1. -/
theorem C4_posting_key_precedence :
    get_posting_key (some "A") (some "B") (some "C") = .ok "A"
    ∧ get_posting_key none (some "B") (some "C") = .ok "B"
    ∧ get_posting_key none none (some "C") = .ok "C"
    ∧ get_posting_key none none none = .error 1 := by
  refine ⟨?_, ?_, ?_, ?_⟩ <;> decide

/-- Claim C10: `get_posting_key` tests each source by truthiness, not
presence: an empty-string CLI (or YAML) secret falls through to the next
source, so CLI "" with YAML "B" resolves to "B", CLI "" and YAML "" fall
through to the environment, and three empty strings exit with code 1. -/
theorem C10_truthiness_fallthrough :
    get_posting_key (some "") (some "B") none = .ok "B"
    ∧ get_posting_key (some "") (some "") (some "C") = .ok "C"
    ∧ get_posting_key (some "") (some "") (some "") = .error 1 := by
  refine ⟨?_, ?_, ?_⟩ <;> decide

end ClaimRewards

namespace ClaimRewards

/-- The exact rational value of the float literal 1.2300 used by the claim. -/
theorem ratOnePointTwoThree : (123 / 100 : ℚ) = Rat.divInt 123 100 := by
  rw [Rat.divInt_eq_div]
  norm_num

/-- Counterexample to claim C5 as stated: scot.py's `format_token_amount`
(one of the two cited implementations) does not trim trailing zeroes, so
`format_token_amount(1.2300, precision=4)` there returns "1.2300", not
"1.23". -/
theorem C5_counterexample :
    ScotPy.format_token_amount (123 / 100 : ℚ) 4 ≠ "1.23" := by
  rw [ratOnePointTwoThree]
  decide

/-- Claim C5 amended: the scot_client.py `format_token_amount` formats to the
declared precision and trims trailing zeroes (1.2300 at precision 4 gives
"1.23", and 5 at precision 0 gives the bare integer "5"), while the scot.py
variant formats to fixed precision without trimming (1.2300 at precision 4
gives "1.2300"; 5 at precision 0 still gives "5"). -/
theorem C5_amended_format_token_amount :
    ScotClient.format_token_amount (123 / 100 : ℚ) 4 = "1.23"
    ∧ ScotClient.format_token_amount 5 0 = "5"
    ∧ ScotPy.format_token_amount (123 / 100 : ℚ) 4 = "1.2300"
    ∧ ScotPy.format_token_amount 5 0 = "5" := by
  refine ⟨?_, by decide, ?_, by decide⟩
  · rw [ratOnePointTwoThree]
    decide
  · rw [ratOnePointTwoThree]
    decide

/-- Counterexample to claim C6 as stated: on the response
`{"SYM": {"pending_token": 1500, "precision": 3, "staked_tokens": 2000}}`,
scot.py's `get_scot_rewards` (one of the two cited implementations) does not
return the entry with pending "1.5" and staked "2": its non-trimming
formatter yields "1.500" and "2.000". -/
theorem C6_counterexample :
    ScotPy.get_scot_rewards
      (Except.ok [("SYM", ⟨some 1500, some 3, some 2000⟩)])
      ≠ [⟨"SYM", "1.5", "2", 3, 1500⟩] := by
  decide

/-- Claim C6 amended: on the single-token response
`{"SYM": {"pending_token": 1500, "precision": 3, "staked_tokens": 2000}}`,
scot_client.py's `get_scot_rewards` returns exactly one entry with
symbol "SYM", pending "1.5", staked "2", precision 3 and raw_pending 1500,
while scot.py's variant returns the same entry with untrimmed amounts
pending "1.500" and staked "2.000". -/
theorem C6_amended_single_token_response :
    ScotClient.get_scot_rewards
      (Except.ok [("SYM", ⟨some 1500, some 3, some 2000⟩)])
      = [⟨"SYM", "1.5", "2", 3, 1500⟩]
    ∧ ScotPy.get_scot_rewards
      (Except.ok [("SYM", ⟨some 1500, some 3, some 2000⟩)])
      = [⟨"SYM", "1.500", "2.000", 3, 1500⟩] := by
  exact ⟨by decide, by decide⟩

end ClaimRewards

namespace ClaimRewards

/-- Claim C7: `get_scot_rewards` never raises: on any network or decode
error it returns the empty list, and on success every returned entry comes
from a token whose `pending_token` field is strictly positive, so
`raw_pending > 0` for every returned entry. -/
theorem C7_error_empty_and_positive_pending :
    (∀ e : Unit, ScotClient.get_scot_rewards (Except.error e) = [])
    ∧ ∀ (data : List (String × TokenData)) (r : ScotReward),
        r ∈ ScotClient.get_scot_rewards (Except.ok data) → 0 < r.raw_pending := by
  constructor
  · intro e
    rfl
  · intro data r hr
    simp only [ScotClient.get_scot_rewards, List.mem_filterMap] at hr
    obtain ⟨p, hp, heq⟩ := hr
    by_cases h : 0 < p.2.pending_token.getD 0
    · rw [if_pos h] at heq
      cases heq
      exact h
    · rw [if_neg h] at heq
      cases heq

/-- Witness for C7: a failed fetch yields the empty list, and the single
entry produced from a positive `pending_token` has positive `raw_pending`. -/
theorem C7_error_empty_and_positive_pending_witness :
    ScotClient.get_scot_rewards (Except.error ()) = []
    ∧ 0 < (⟨"SYM", "1.5", "2", 3, 1500⟩ : ScotReward).raw_pending :=
  ⟨C7_error_empty_and_positive_pending.1 (),
   C7_error_empty_and_positive_pending.2
     [("SYM", ⟨some 1500, some 3, some 2000⟩)]
     ⟨"SYM", "1.5", "2", 3, 1500⟩ (by decide)⟩

end ClaimRewards

namespace ClaimRewards

/-- Counterexample to claim C8 as stated: in the standalone variant a
failure to connect to the ledger is caught inside
`claim_rewards_for_all_accounts` (lines 147-151), logged, and the run
returns normally, so the process exits with code 0, not 1. -/
theorem C8_counterexample :
    Standalone.mainExit (.given (.ok ⟨some ["alice"], some "K"⟩)) none none
      false true (fun _ => FetchResult.raises) (fun _ => true) false = 0 := by
  decide

/-- Claim C8 amended: configuration errors (unreadable config, missing
secret) exit with code 1 in both variants, and the main.py variant exits
with code 1 on any connection failure; but the standalone variant logs a
connection failure and exits 0.  When config, secret and connection all
resolve, both variants exit 0 even when every individual account's claim
fails. -/
theorem C8_amended_exit_codes :
    (∀ cfg cli env macc fetch b d,
      MainPy.mainExit cfg cli env false macc fetch b d = 1)
    ∧ (∀ (e : ℕ) cli env co macc fetch b d,
        Standalone.mainExit (.given (.error e)) cli env co macc fetch b d = 1
        ∧ MainPy.mainExit (.given (.error e)) cli env co macc fetch b d = 1)
    ∧ (∀ accts co macc fetch b d,
        Standalone.mainExit (.given (.ok ⟨some accts, none⟩)) none none co macc
          fetch b d = 1
        ∧ MainPy.mainExit (.given (.ok ⟨some accts, none⟩)) none none co macc
          fetch b d = 1)
    ∧ (∀ accts macc fetch b d, accts ≠ [] →
        Standalone.mainExit (.given (.ok ⟨some accts, some "K"⟩)) none none
          false macc fetch b d = 0)
    ∧ (∀ accts fetch b d, accts ≠ [] →
        Standalone.mainExit (.given (.ok ⟨some accts, some "K"⟩)) none none
          true true fetch b d = 0
        ∧ MainPy.mainExit (.given (.ok ⟨some accts, some "K"⟩)) none none
          true true fetch b d = 0) := by
  refine ⟨?_, ?_, ?_, ?_, ?_⟩
  · intro cfg cli env macc fetch b d
    unfold MainPy.mainExit MainPy.run
    cases hld : load_accounts_and_posting_key cfg with
    | error n => rfl
    | ok p =>
      obtain ⟨accounts, yamlKey⟩ := p
      cases hpk : get_posting_key cli yamlKey env with
      | error n => simp [hpk]
      | ok k => simp [hpk]
  · intro e cli env co macc fetch b d
    exact ⟨rfl, rfl⟩
  · intro accts co macc fetch b d
    constructor
    · cases accts with
      | nil => rfl
      | cons a rest => rfl
    · rfl
  · intro accts macc fetch b d hne
    cases accts with
    | nil => exact absurd rfl hne
    | cons a rest => rfl
  · intro accts fetch b d hne
    cases accts with
    | nil => exact absurd rfl hne
    | cons a rest => exact ⟨rfl, rfl⟩

/-- Witness for C8 amended: a fully configured run in which every account's
lookup raises still exits with code 0 in both variants. -/
theorem C8_amended_exit_codes_witness :
    Standalone.mainExit (.given (.ok ⟨some ["alice"], some "K"⟩)) none none
      true true (fun _ => FetchResult.raises) (fun _ => true) false = 0
    ∧ MainPy.mainExit (.given (.ok ⟨some ["alice"], some "K"⟩)) none none
      true true (fun _ => FetchResult.raises) (fun _ => true) false = 0 :=
  C8_amended_exit_codes.2.2.2.2 ["alice"] (fun _ => FetchResult.raises)
    (fun _ => true) false (by decide)

/-- Claim C9: with the config file's account-list key absent,
`load_accounts_and_posting_key` returns the empty sequence rather than
failing; the standalone variant then exits with code 1 before designating an
authority account, while the main.py variant reaches the unguarded
`accounts[0]` on the empty list (out-of-range access). -/
theorem C9_empty_account_list (pk envKey : Option String) (co macc : Bool)
    (fetch : String → FetchResult) (b : String → Bool) (d : Bool) :
    load_accounts_and_posting_key (.given (.ok ⟨none, pk⟩)) = .ok ([], pk)
    ∧ Standalone.run (.given (.ok ⟨none, pk⟩)) (some "K") envKey co macc
        fetch b d = .exitEmptyAccounts
    ∧ Standalone.mainExit (.given (.ok ⟨none, pk⟩)) (some "K") envKey co macc
        fetch b d = 1
    ∧ MainPy.run (.given (.ok ⟨none, pk⟩)) (some "K") envKey true macc
        fetch b d = .indexError := by
  exact ⟨rfl, rfl, rfl, rfl⟩

end ClaimRewards
